import Mathlib

/-!
Shallow embedding of the profile-catalog core of cfhdb (Rust sources under
`src/`): the JSON catalog parser (`get_usb_profiles_from_url`,
`get_bt_profiles_from_url`, `get_dmi_profiles_from_url`), the device/profile
matching engine (`set_available_profiles` of the three device domains), the
installed-status check (`get_status`) and the install-script builder
(`install_usb_profile`, `install_bt_profile`).

Modelling conventions:
* JSON documents are the inductive `Json` below; `serde_json::Value` string
  indexing (`value["key"]`, which yields `Null` on a missing key or a
  non-object) is `Json.get`; `as_str` / `as_array` / `as_bool` / `as_i64`
  are the `as*` projections.  Non-integer JSON numbers play no role in the
  claims and are not modelled.
* The network and the filesystem are explicit parameters: a fetch attempt is
  an `Option HttpResponse` (`none` = transport failure, the only case in
  which `reqwest`'s `send()` returns `Err`), the cache file is an
  `Option String`, `serde_json::from_str` is a `String → Option Json`
  parameter, and shell execution is a `String → Bool` oracle mapping the
  materialized script text to "exited with status 0".
* Rust panics (`expect` / `unwrap` on catalog data) are `Except.error`;
  they abort the whole parse exactly as a panic aborts the process.
* `Vec::sort_by_key` is a stable sort; stable sorting by a fixed key is
  extensionally unique, so it is modelled by the stable insertion sort
  `sort_by_key` below.
* The lock-guarded `available_profiles` slot of a device is modelled by an
  explicit `SlotState` (final slot contents plus number of writes), threaded
  through the matching pass exactly as the Rust loop mutates it.
-/

/-- JSON values, as far as the cfhdb catalog format needs them. -/
inductive Json where
  | null : Json
  | bool : Bool → Json
  | num : Int → Json
  | str : String → Json
  | arr : List Json → Json
  | obj : List (String × Json) → Json
deriving Repr

/-- Model of `serde_json::Value` string indexing: on an object, the value of
the first field with the given key (`Null` when absent); `Null` on any
non-object. -/
def Json.get (j : Json) (key : String) : Json :=
  match j with
  | .obj kvs =>
    match kvs.find? (fun kv => kv.fst == key) with
    | some kv => kv.snd
    | none => .null
  | _ => .null

/-- Model of `Value::as_str`. -/
def Json.asStr : Json → Option String
  | .str s => some s
  | _ => none

/-- Model of `Value::as_array`. -/
def Json.asArray : Json → Option (List Json)
  | .arr xs => some xs
  | _ => none

/-- Model of `Value::as_bool`. -/
def Json.asBool : Json → Option Bool
  | .bool b => some b
  | _ => none

/-- Model of `Value::as_i64` (integer numbers only; see the header note). -/
def Json.asI64 : Json → Option Int
  | .num n => some n
  | _ => none

/-- Rust's `as i32` cast: wrap into `[-2^31, 2^31)`. -/
def asI32 (n : Int) : Int :=
  (n + 2 ^ 31) % 2 ^ 32 - 2 ^ 31

/-- Errors of the catalog pipeline: the cache-miss `io::Error` and the two
parser panics (`expect("Unable to parse")`, `expect("invalid_*_profile_*")`). -/
inductive CatalogError where
  | cache_not_found : CatalogError
  | unable_to_parse : CatalogError
  | invalid_profile_packages : CatalogError
deriving Repr, DecidableEq

/-- Ambient values the parsers read besides the document: the active locale
(`rust_i18n::locale()`) and the localized `t!("unknown")` label. -/
structure ParseEnv where
  locale : String
  t_unknown : String
deriving Repr, DecidableEq

/-- Field-list parsing used for every match/blacklist field: array elements
are coerced with `as_str().unwrap_or_default()`, any non-array (including a
missing key) becomes the empty list. -/
def parse_str_list (j : Json) (key : String) : List String :=
  match (j.get key).asArray with
  | some xs => xs.map (fun x => x.asStr.getD "")
  | none => []

/-- The `packages` rule shared by the three parsers: a string means
`packages = None`; otherwise the value must be an array (elements coerced via
`as_str().unwrap_or_default()`) or the parse panics. -/
def parse_packages (j : Json) : Except CatalogError (Option (List String)) :=
  match (j.get "packages").asStr with
  | some _ => .ok none
  | none =>
    match (j.get "packages").asArray with
    | some xs => .ok (some (xs.map (fun x => x.asStr.getD "")))
    | none => .error .invalid_profile_packages

/-- The `install_script` / `remove_script` rule shared by the three parsers:
read the value with `as_str().unwrap_or_default()`; the exact sentinel
`"Option::is_none"` means no script, anything else is kept verbatim. -/
def parse_optional_script (j : Json) (key : String) : Option String :=
  let v := ((j.get key).asStr).getD ""
  if v = "Option::is_none" then none else some v

/-- The `i18n_desc` rule shared by the three parsers: prefer a non-empty
locale-qualified `i18n_desc[<locale>]` string, else the base key, else `""`. -/
def parse_i18n_desc (env : ParseEnv) (j : Json) : String :=
  match (j.get ("i18n_desc[" ++ env.locale ++ "]")).asStr with
  | some t =>
    if t ≠ "" then t
    else (j.get "i18n_desc").asStr.getD ""
  | none => (j.get "i18n_desc").asStr.getD ""

/-- `CfhdbUsbProfile` (src/src/lib/usb.rs); `veiled` is included as in the
initializer of `get_usb_profiles_from_url`. -/
structure CfhdbUsbProfile where
  codename : String
  i18n_desc : String
  icon_name : String
  license : String
  class_codes : List String
  vendor_ids : List String
  product_ids : List String
  blacklisted_class_codes : List String
  blacklisted_vendor_ids : List String
  blacklisted_product_ids : List String
  packages : Option (List String)
  check_script : String
  install_script : Option String
  remove_script : Option String
  experimental : Bool
  removable : Bool
  veiled : Bool
  priority : Int
deriving Repr, DecidableEq

/-- `CfhdbBtProfile` (src/src/lib/bt/mod.rs). -/
structure CfhdbBtProfile where
  codename : String
  i18n_desc : String
  icon_name : String
  license : String
  class_ids : List String
  bt_names : List String
  modalias_vendor_ids : List String
  modalias_device_ids : List String
  modalias_product_ids : List String
  blacklisted_class_ids : List String
  blacklisted_bt_names : List String
  blacklisted_modalias_vendor_ids : List String
  blacklisted_modalias_device_ids : List String
  blacklisted_modalias_product_ids : List String
  packages : Option (List String)
  check_script : String
  install_script : Option String
  remove_script : Option String
  experimental : Bool
  removable : Bool
  veiled : Bool
  priority : Int
deriving Repr, DecidableEq

/-- `CfhdbDmiProfile` (src/src/lib/dmi/mod.rs). -/
structure CfhdbDmiProfile where
  codename : String
  i18n_desc : String
  icon_name : String
  license : String
  bios_vendors : List String
  board_asset_tags : List String
  board_names : List String
  board_vendors : List String
  product_families : List String
  product_names : List String
  product_skus : List String
  sys_vendors : List String
  blacklisted_bios_vendors : List String
  blacklisted_board_asset_tags : List String
  blacklisted_board_names : List String
  blacklisted_board_vendors : List String
  blacklisted_product_families : List String
  blacklisted_product_names : List String
  blacklisted_product_skus : List String
  blacklisted_sys_vendors : List String
  packages : Option (List String)
  check_script : String
  install_script : Option String
  remove_script : Option String
  experimental : Bool
  removable : Bool
  veiled : Bool
  priority : Int
deriving Repr, DecidableEq

/-- One catalog entry of `get_usb_profiles_from_url` (src/src/usb_func.rs
lines 451-577): all fields are defaulted; only `packages` can abort. -/
def parse_usb_profile (env : ParseEnv) (j : Json) :
    Except CatalogError CfhdbUsbProfile :=
  match parse_packages j with
  | .error e => .error e
  | .ok pkgs =>
    .ok
      { codename := (j.get "codename").asStr.getD ""
        i18n_desc := parse_i18n_desc env j
        icon_name := (j.get "icon_name").asStr.getD "package-x-generic"
        license := (j.get "license").asStr.getD env.t_unknown
        class_codes := parse_str_list j "class_codes"
        vendor_ids := parse_str_list j "vendor_ids"
        product_ids := parse_str_list j "product_ids"
        blacklisted_class_codes := parse_str_list j "blacklisted_class_codes"
        blacklisted_vendor_ids := parse_str_list j "blacklisted_vendor_ids"
        blacklisted_product_ids := parse_str_list j "blacklisted_product_ids"
        packages := pkgs
        check_script := (j.get "check_script").asStr.getD "false"
        install_script := parse_optional_script j "install_script"
        remove_script := parse_optional_script j "remove_script"
        experimental := (j.get "experimental").asBool.getD false
        removable := (j.get "removable").asBool.getD false
        veiled := (j.get "veiled").asBool.getD false
        priority := asI32 ((j.get "priority").asI64.getD 0) }

/-- One catalog entry of `get_bt_profiles_from_url` (src/src/bt_func.rs
lines 501-661). -/
def parse_bt_profile (env : ParseEnv) (j : Json) :
    Except CatalogError CfhdbBtProfile :=
  match parse_packages j with
  | .error e => .error e
  | .ok pkgs =>
    .ok
      { codename := (j.get "codename").asStr.getD ""
        i18n_desc := parse_i18n_desc env j
        icon_name := (j.get "icon_name").asStr.getD "package-x-generic"
        license := (j.get "license").asStr.getD env.t_unknown
        class_ids := parse_str_list j "class_ids"
        bt_names := parse_str_list j "bt_names"
        modalias_vendor_ids := parse_str_list j "modalias_vendor_ids"
        modalias_device_ids := parse_str_list j "modalias_device_ids"
        modalias_product_ids := parse_str_list j "modalias_product_ids"
        blacklisted_class_ids := parse_str_list j "blacklisted_class_ids"
        blacklisted_bt_names := parse_str_list j "blacklisted_bt_names"
        blacklisted_modalias_vendor_ids :=
          parse_str_list j "blacklisted_modalias_vendor_ids"
        blacklisted_modalias_device_ids :=
          parse_str_list j "blacklisted_modalias_device_ids"
        blacklisted_modalias_product_ids :=
          parse_str_list j "blacklisted_modalias_product_ids"
        packages := pkgs
        check_script := (j.get "check_script").asStr.getD "false"
        install_script := parse_optional_script j "install_script"
        remove_script := parse_optional_script j "remove_script"
        experimental := (j.get "experimental").asBool.getD false
        removable := (j.get "removable").asBool.getD false
        veiled := (j.get "veiled").asBool.getD false
        priority := asI32 ((j.get "priority").asI64.getD 0) }

/-- One catalog entry of `get_dmi_profiles_from_url` (src/src/dmi_func.rs
lines 332-452). -/
def parse_dmi_profile (env : ParseEnv) (j : Json) :
    Except CatalogError CfhdbDmiProfile :=
  match parse_packages j with
  | .error e => .error e
  | .ok pkgs =>
    .ok
      { codename := (j.get "codename").asStr.getD ""
        i18n_desc := parse_i18n_desc env j
        icon_name := (j.get "icon_name").asStr.getD "package-x-generic"
        license := (j.get "license").asStr.getD env.t_unknown
        bios_vendors := parse_str_list j "bios_vendors"
        board_asset_tags := parse_str_list j "board_asset_tags"
        board_names := parse_str_list j "board_names"
        board_vendors := parse_str_list j "board_vendors"
        product_families := parse_str_list j "product_families"
        product_names := parse_str_list j "product_names"
        product_skus := parse_str_list j "product_skus"
        sys_vendors := parse_str_list j "sys_vendors"
        blacklisted_bios_vendors := parse_str_list j "blacklisted_bios_vendors"
        blacklisted_board_asset_tags :=
          parse_str_list j "blacklisted_board_asset_tags"
        blacklisted_board_names := parse_str_list j "blacklisted_board_names"
        blacklisted_board_vendors := parse_str_list j "blacklisted_board_vendors"
        blacklisted_product_families :=
          parse_str_list j "blacklisted_product_families"
        blacklisted_product_names := parse_str_list j "blacklisted_product_names"
        blacklisted_product_skus := parse_str_list j "blacklisted_product_skus"
        blacklisted_sys_vendors := parse_str_list j "blacklisted_sys_vendors"
        packages := pkgs
        check_script := (j.get "check_script").asStr.getD "false"
        install_script := parse_optional_script j "install_script"
        remove_script := parse_optional_script j "remove_script"
        experimental := (j.get "experimental").asBool.getD false
        removable := (j.get "removable").asBool.getD false
        veiled := (j.get "veiled").asBool.getD false
        priority := asI32 ((j.get "priority").asI64.getD 0) }

/-- Stable insertion keyed by `key`: the new element goes before the first
element whose key is `≥` its own, i.e. after every strictly smaller key and
before equal keys already present later in the traversal. -/
def ordered_insert {α : Type} (key : α → Int) (x : α) : List α → List α
  | [] => [x]
  | y :: l => if key x ≤ key y then x :: y :: l else y :: ordered_insert key x l

/-- Stable insertion sort by `key`.  Rust's `Vec::sort_by_key` is a stable
sort, and a stable sort by a fixed key is extensionally unique, so this is a
faithful model of `profiles_array.sort_by_key(|x| x.priority)`. -/
def sort_by_key {α : Type} (key : α → Int) : List α → List α
  | [] => []
  | x :: l => ordered_insert key x (sort_by_key key l)

/-- The parser's accumulation step: push the new profile, then re-sort the
whole array by priority — exactly the loop body
`profiles_array.push(profile_struct); profiles_array.sort_by_key(|x| x.priority)`. -/
def catalog_append {α : Type} (key : α → Int) (acc : List α) (x : α) : List α :=
  sort_by_key key (acc ++ [x])

/-- The per-domain parse loop over the `profiles` array: parse each entry in
order (a parse panic aborts everything), pushing and re-sorting after each. -/
def parse_catalog_loop {α : Type} (parse1 : Json → Except CatalogError α)
    (key : α → Int) (acc : List α) : List Json → Except CatalogError (List α)
  | [] => .ok acc
  | j :: js =>
    match parse1 j with
    | .error e => .error e
    | .ok p => parse_catalog_loop parse1 key (catalog_append key acc p) js

/-- Entry parsing without the re-sorting, for stating stability: the profile
records in catalog traversal (insertion) order. -/
def parse_list {α : Type} (parse1 : Json → Except CatalogError α) :
    List Json → Except CatalogError (List α)
  | [] => .ok []
  | j :: js =>
    match parse1 j with
    | .error e => .error e
    | .ok p =>
      match parse_list parse1 js with
      | .error e => .error e
      | .ok ps => .ok (p :: ps)

/-- Shared shape of the three `get_*_profiles_from_url` parser bodies: a
document whose `profiles` key holds an array is folded with
`parse_catalog_loop`; any other document yields the empty catalog. -/
def parse_catalog {α : Type} (parse1 : Json → Except CatalogError α)
    (key : α → Int) (doc : Json) : Except CatalogError (List α) :=
  match (doc.get "profiles").asArray with
  | some js => parse_catalog_loop parse1 key [] js
  | none => .ok []

/-- `get_usb_profiles_from_url`'s parse of a fetched document. -/
def parse_usb_profiles (env : ParseEnv) (doc : Json) :
    Except CatalogError (List CfhdbUsbProfile) :=
  parse_catalog (parse_usb_profile env) (fun p => p.priority) doc

/-- `get_bt_profiles_from_url`'s parse of a fetched document. -/
def parse_bt_profiles (env : ParseEnv) (doc : Json) :
    Except CatalogError (List CfhdbBtProfile) :=
  parse_catalog (parse_bt_profile env) (fun p => p.priority) doc

/-- `get_dmi_profiles_from_url`'s parse of a fetched document. -/
def parse_dmi_profiles (env : ParseEnv) (doc : Json) :
    Except CatalogError (List CfhdbDmiProfile) :=
  parse_catalog (parse_dmi_profile env) (fun p => p.priority) doc

/-- Unsorted variants (entry records in traversal order), used to state the
stability half of the ordering claim. -/
def parse_usb_profiles_raw (env : ParseEnv) (doc : Json) :
    Except CatalogError (List CfhdbUsbProfile) :=
  match (doc.get "profiles").asArray with
  | some js => parse_list (parse_usb_profile env) js
  | none => .ok []

/-- Unsorted Bluetooth variant; see `parse_usb_profiles_raw`. -/
def parse_bt_profiles_raw (env : ParseEnv) (doc : Json) :
    Except CatalogError (List CfhdbBtProfile) :=
  match (doc.get "profiles").asArray with
  | some js => parse_list (parse_bt_profile env) js
  | none => .ok []

/-- Unsorted DMI variant; see `parse_usb_profiles_raw`. -/
def parse_dmi_profiles_raw (env : ParseEnv) (doc : Json) :
    Except CatalogError (List CfhdbDmiProfile) :=
  match (doc.get "profiles").asArray with
  | some js => parse_list (parse_dmi_profile env) js
  | none => .ok []

/-- An HTTP response as `reqwest` hands it back: `send()` returns `Ok` for
every received response, whatever its status code; only transport failures
(timeout, connection error) return `Err` and are modelled as `none`. -/
structure HttpResponse where
  status : Nat
  body : String
deriving Repr, DecidableEq

/-- The ambient world of one `get_*_profiles_from_url` call: the outcome of
the single network attempt and the domain's cache-file contents (`none` =
the file does not exist). -/
structure FetchEnv where
  response : Option HttpResponse
  cache_file : Option String
deriving Repr, DecidableEq

/-- Result of a fetch call together with the cache file it leaves behind. -/
structure FetchOutcome (α : Type) where
  result : Except CatalogError α
  cache_after : Option String
deriving Repr

/-- The data-acquisition half shared by the three fetchers: a received
response's body is written to the cache (best effort, modelled as
succeeding) and used; on transport failure the cache is read if it exists,
else the call fails with the `NotFound` error.  Returns the raw text to be
parsed (or `none` = failure) and the cache contents afterwards. -/
def fetch_profiles_data (env : FetchEnv) : Option String × Option String :=
  match env.response with
  | some resp => (some resp.body, some resp.body)
  | none =>
    match env.cache_file with
    | some c => (some c, env.cache_file)
    | none => (none, env.cache_file)

/-- `serde_json::from_str` followed by the usb profile traversal: the text
parse uses the `from_str` parameter, a malformed text panics
(`expect("Unable to parse")`). -/
def parse_usb_catalog_text (env : ParseEnv) (from_str : String → Option Json)
    (data : String) : Except CatalogError (List CfhdbUsbProfile) :=
  match from_str data with
  | none => .error .unable_to_parse
  | some doc => parse_usb_profiles env doc

/-- Bluetooth variant of `parse_usb_catalog_text`. -/
def parse_bt_catalog_text (env : ParseEnv) (from_str : String → Option Json)
    (data : String) : Except CatalogError (List CfhdbBtProfile) :=
  match from_str data with
  | none => .error .unable_to_parse
  | some doc => parse_bt_profiles env doc

/-- DMI variant of `parse_usb_catalog_text`. -/
def parse_dmi_catalog_text (env : ParseEnv) (from_str : String → Option Json)
    (data : String) : Except CatalogError (List CfhdbDmiProfile) :=
  match from_str data with
  | none => .error .unable_to_parse
  | some doc => parse_dmi_profiles env doc

/-- `get_usb_profiles_from_url` (src/src/usb_func.rs lines 398-582). -/
def get_usb_profiles_from_url (env : ParseEnv)
    (from_str : String → Option Json) (world : FetchEnv) :
    FetchOutcome (List CfhdbUsbProfile) :=
  match fetch_profiles_data world with
  | (none, ca) => { result := .error .cache_not_found, cache_after := ca }
  | (some data, ca) =>
    { result := parse_usb_catalog_text env from_str data, cache_after := ca }

/-- `get_bt_profiles_from_url` (src/src/bt_func.rs lines 448-667). -/
def get_bt_profiles_from_url (env : ParseEnv)
    (from_str : String → Option Json) (world : FetchEnv) :
    FetchOutcome (List CfhdbBtProfile) :=
  match fetch_profiles_data world with
  | (none, ca) => { result := .error .cache_not_found, cache_after := ca }
  | (some data, ca) =>
    { result := parse_bt_catalog_text env from_str data, cache_after := ca }

/-- `get_dmi_profiles_from_url` (src/src/dmi_func.rs lines 280-458). -/
def get_dmi_profiles_from_url (env : ParseEnv)
    (from_str : String → Option Json) (world : FetchEnv) :
    FetchOutcome (List CfhdbDmiProfile) :=
  match fetch_profiles_data world with
  | (none, ca) => { result := .error .cache_not_found, cache_after := ca }
  | (some data, ca) =>
    { result := parse_dmi_catalog_text env from_str data, cache_after := ca }

/-- `CfhdbUsbDevice` (src/src/lib/usb.rs): identification and lifecycle
attributes.  The `available_profiles` slot is not a field here; the matching
pass below threads it explicitly as a `SlotState`. -/
structure CfhdbUsbDevice where
  manufacturer_string_index : String
  product_string_index : String
  serial_number_string_index : String
  protocol_code : String
  class_code : String
  vendor_id : String
  product_id : String
  usb_version : String
  bus_number : Nat
  port_number : Nat
  address : Nat
  sysfs_busid : String
  kernel_driver : String
  started : Option Bool
  enabled : Bool
  speed : String
deriving Repr, DecidableEq

/-- `CfhdbBtDevice` (src/src/lib/bt/mod.rs); the `bluer_device` OS handle is
outside the model, `available_profiles` is threaded as a `SlotState`, and
the Rust field `alias` is renamed `bt_alias` (`alias` is reserved here). -/
structure CfhdbBtDevice where
  bt_alias : String
  name : String
  class_id : String
  modalias_vendor_id : String
  modalias_product_id : String
  modalias_device_id : String
  adapter : String
  paired : Bool
  connected : Bool
  trusted : Bool
  blocked : Bool
  address : String
  battery_level : Nat
deriving Repr, DecidableEq

/-- `CfhdbDmiDevice` (src/src/lib/dmi/mod.rs); `available_profiles` is
threaded as a `SlotState`. -/
structure CfhdbDmiDevice where
  bios_date : String
  bios_release : String
  bios_vendor : String
  bios_version : String
  board_asset_tag : String
  board_name : String
  board_vendor : String
  board_version : String
  product_family : String
  product_name : String
  product_sku : String
  sys_vendor : String
deriving Repr, DecidableEq

/-- The blacklist condition of `CfhdbUsbDevice::set_available_profiles`: any
blacklist field containing `*` or the device's corresponding attribute. -/
def usb_blacklist_hit (device : CfhdbUsbDevice) (profile : CfhdbUsbProfile) : Bool :=
  (profile.blacklisted_class_codes.contains "*"
      || profile.blacklisted_class_codes.contains device.class_code)
    || (profile.blacklisted_vendor_ids.contains "*"
      || profile.blacklisted_vendor_ids.contains device.vendor_id)
    || (profile.blacklisted_product_ids.contains "*"
      || profile.blacklisted_product_ids.contains device.product_id)

/-- The whitelist conjunction of `CfhdbUsbDevice::set_available_profiles`. -/
def usb_whitelist_ok (device : CfhdbUsbDevice) (profile : CfhdbUsbProfile) : Bool :=
  (profile.class_codes.contains "*"
      || profile.class_codes.contains device.class_code)
    && (profile.vendor_ids.contains "*"
      || profile.vendor_ids.contains device.vendor_id)
    && (profile.product_ids.contains "*"
      || profile.product_ids.contains device.product_id)

/-- The `matching` value computed for one (device, profile) pair in
`CfhdbUsbDevice::set_available_profiles` (src/src/lib/usb.rs lines 154-171). -/
def usb_matching (device : CfhdbUsbDevice) (profile : CfhdbUsbProfile) : Bool :=
  if usb_blacklist_hit device profile then false
  else usb_whitelist_ok device profile

/-- The blacklist condition of `CfhdbBtDevice::set_available_profiles`
(src/src/lib/bt/mod.rs lines 66-88): all five blacklist fields are checked. -/
def bt_blacklist_hit (device : CfhdbBtDevice) (profile : CfhdbBtProfile) : Bool :=
  (profile.blacklisted_class_ids.contains "*"
      || profile.blacklisted_class_ids.contains device.class_id)
    || (profile.blacklisted_bt_names.contains "*"
      || profile.blacklisted_bt_names.contains device.name)
    || (profile.blacklisted_modalias_device_ids.contains "*"
      || profile.blacklisted_modalias_device_ids.contains device.modalias_device_id)
    || (profile.blacklisted_modalias_product_ids.contains "*"
      || profile.blacklisted_modalias_product_ids.contains device.modalias_product_id)
    || (profile.blacklisted_modalias_vendor_ids.contains "*"
      || profile.blacklisted_modalias_vendor_ids.contains device.modalias_vendor_id)

/-- The whitelist loop of `CfhdbBtDevice::set_available_profiles`
(src/src/lib/bt/mod.rs lines 91-107): the source iterates over the four
pairs `bt_names`, `modalias_device_ids`, `modalias_product_ids`,
`modalias_vendor_ids` with an early break, which is this conjunction.
`class_ids` is NOT in the source's array, so it is absent here. -/
def bt_whitelist_ok (device : CfhdbBtDevice) (profile : CfhdbBtProfile) : Bool :=
  (profile.bt_names.contains "*" || profile.bt_names.contains device.name)
    && (profile.modalias_device_ids.contains "*"
      || profile.modalias_device_ids.contains device.modalias_device_id)
    && (profile.modalias_product_ids.contains "*"
      || profile.modalias_product_ids.contains device.modalias_product_id)
    && (profile.modalias_vendor_ids.contains "*"
      || profile.modalias_vendor_ids.contains device.modalias_vendor_id)

/-- The `matching` value of `CfhdbBtDevice::set_available_profiles`. -/
def bt_matching (device : CfhdbBtDevice) (profile : CfhdbBtProfile) : Bool :=
  if bt_blacklist_hit device profile then false
  else bt_whitelist_ok device profile

/-- The blacklist condition of `CfhdbDmiDevice::set_available_profiles`
(src/src/lib/dmi/mod.rs lines 81-102): all eight blacklist fields. -/
def dmi_blacklist_hit (device : CfhdbDmiDevice) (profile : CfhdbDmiProfile) : Bool :=
  (profile.blacklisted_bios_vendors.contains "*"
      || profile.blacklisted_bios_vendors.contains device.bios_vendor)
    || (profile.blacklisted_board_asset_tags.contains "*"
      || profile.blacklisted_board_asset_tags.contains device.board_asset_tag)
    || (profile.blacklisted_board_names.contains "*"
      || profile.blacklisted_board_names.contains device.board_name)
    || (profile.blacklisted_board_vendors.contains "*"
      || profile.blacklisted_board_vendors.contains device.board_vendor)
    || (profile.blacklisted_product_families.contains "*"
      || profile.blacklisted_product_families.contains device.product_family)
    || (profile.blacklisted_product_names.contains "*"
      || profile.blacklisted_product_names.contains device.product_name)
    || (profile.blacklisted_product_skus.contains "*"
      || profile.blacklisted_product_skus.contains device.product_sku)
    || (profile.blacklisted_sys_vendors.contains "*"
      || profile.blacklisted_sys_vendors.contains device.sys_vendor)

/-- The whitelist loop of `CfhdbDmiDevice::set_available_profiles`
(src/src/lib/dmi/mod.rs lines 105-125): all eight match fields. -/
def dmi_whitelist_ok (device : CfhdbDmiDevice) (profile : CfhdbDmiProfile) : Bool :=
  (profile.bios_vendors.contains "*"
      || profile.bios_vendors.contains device.bios_vendor)
    && (profile.board_asset_tags.contains "*"
      || profile.board_asset_tags.contains device.board_asset_tag)
    && (profile.board_names.contains "*"
      || profile.board_names.contains device.board_name)
    && (profile.board_vendors.contains "*"
      || profile.board_vendors.contains device.board_vendor)
    && (profile.product_families.contains "*"
      || profile.product_families.contains device.product_family)
    && (profile.product_names.contains "*"
      || profile.product_names.contains device.product_name)
    && (profile.product_skus.contains "*"
      || profile.product_skus.contains device.product_sku)
    && (profile.sys_vendors.contains "*"
      || profile.sys_vendors.contains device.sys_vendor)

/-- The `matching` value of `CfhdbDmiDevice::set_available_profiles`. -/
def dmi_matching (device : CfhdbDmiDevice) (profile : CfhdbDmiProfile) : Bool :=
  if dmi_blacklist_hit device profile then false
  else dmi_whitelist_ok device profile

/-- The device's mutable `available_profiles` slot as the matching pass sees
it: its contents after the pass and how many times it was assigned. -/
structure SlotState (α : Type) where
  slot : Option (List α)
  writes : Nat
deriving Repr

/-- One pass of the `set_available_profiles` loop shared by the three
domains: per profile, push it onto the local vector when `matching`, then —
still inside the loop — overwrite the device slot with a clone of the vector
whenever the vector is non-empty. -/
def available_pass {α : Type} (matching : α → Bool) :
    List α → List α → SlotState α → SlotState α
  | [], _, st => st
  | p :: ps, acc, st =>
    let acc2 := if matching p then acc ++ [p] else acc
    let st2 : SlotState α :=
      if acc2.isEmpty then st else { slot := some acc2, writes := st.writes + 1 }
    available_pass matching ps acc2 st2

/-- A full `set_available_profiles` call: local vector starts empty, the
slot starts unset (`Rc::default()` / `Arc::default()`). -/
def set_available_profiles_generic {α : Type} (matching : α → Bool)
    (profile_data : List α) : SlotState α :=
  available_pass matching profile_data [] { slot := none, writes := 0 }

/-- `CfhdbUsbDevice::set_available_profiles` (src/src/lib/usb.rs 151-181). -/
def CfhdbUsbDevice.set_available_profiles
    (profile_data : List CfhdbUsbProfile) (device : CfhdbUsbDevice) :
    SlotState CfhdbUsbProfile :=
  set_available_profiles_generic (usb_matching device) profile_data

/-- `CfhdbBtDevice::set_available_profiles` (src/src/lib/bt/mod.rs 62-119). -/
def CfhdbBtDevice.set_available_profiles
    (profile_data : List CfhdbBtProfile) (device : CfhdbBtDevice) :
    SlotState CfhdbBtProfile :=
  set_available_profiles_generic (bt_matching device) profile_data

/-- `CfhdbDmiDevice::set_available_profiles` (src/src/lib/dmi/mod.rs 77-137). -/
def CfhdbDmiDevice.set_available_profiles
    (profile_data : List CfhdbDmiProfile) (device : CfhdbDmiDevice) :
    SlotState CfhdbDmiProfile :=
  set_available_profiles_generic (dmi_matching device) profile_data

/-- The matching result a consumer reads from the slot after the pass (an
unset slot reads as "no profiles"). -/
def SlotState.result_list {α : Type} (st : SlotState α) : List α :=
  st.slot.getD []

/-- `CfhdbUsbProfile::get_status` (src/src/lib/usb.rs 459-485): materialize
the check script (the usb variant appends an output redirect) and run it;
`sh` maps the script text to "exited 0". -/
def CfhdbUsbProfile.get_status (sh : String → Bool) (p : CfhdbUsbProfile) : Bool :=
  sh ("#! /bin/bash\nset -e\n" ++ p.check_script ++ " > /dev/null 2>&1")

/-- `CfhdbBtProfile::get_status` (src/src/lib/bt/mod.rs 352-376). -/
def CfhdbBtProfile.get_status (sh : String → Bool) (p : CfhdbBtProfile) : Bool :=
  sh ("#! /bin/bash\nset -e\n" ++ p.check_script)

/-- `CfhdbDmiProfile::get_status` (src/src/lib/dmi/mod.rs 269-293). -/
def CfhdbDmiProfile.get_status (sh : String → Bool) (p : CfhdbDmiProfile) : Bool :=
  sh ("#! /bin/bash\nset -e\n" ++ p.check_script)

/-- The scripts handed to `run_in_lock_script` by `install_usb_profile`
(src/src/usb_func.rs 219-272) for an already-resolved profile: nothing when
`get_status` reports installed; otherwise the source's nested match on
`install_script` and `packages`.  `distro_packages_installer` (defined
outside src/) is abstracted as the package-manager install step over a
space-joined package list. -/
def install_usb_profile_scripts (sh : String → Bool)
    (distro_packages_installer : String → String) (p : CfhdbUsbProfile) :
    List String :=
  if p.get_status sh then []
  else
    match p.install_script, p.packages with
    | some t, some a =>
      ["#! /bin/bash\nset -e\n"
        ++ distro_packages_installer (String.intercalate " " a) ++ "\n" ++ t]
    | some t, none => ["#! /bin/bash\nset -e\n" ++ t]
    | none, some a =>
      ["#! /bin/bash\nset -e\n"
        ++ distro_packages_installer (String.intercalate " " a)]
    | none, none => []

/-- The scripts handed to `run_in_lock_script` by `install_bt_profile`
(src/src/bt_func.rs 216-269); identical shape to the usb variant. -/
def install_bt_profile_scripts (sh : String → Bool)
    (distro_packages_installer : String → String) (p : CfhdbBtProfile) :
    List String :=
  if p.get_status sh then []
  else
    match p.install_script, p.packages with
    | some t, some a =>
      ["#! /bin/bash\nset -e\n"
        ++ distro_packages_installer (String.intercalate " " a) ++ "\n" ++ t]
    | some t, none => ["#! /bin/bash\nset -e\n" ++ t]
    | none, some a =>
      ["#! /bin/bash\nset -e\n"
        ++ distro_packages_installer (String.intercalate " " a)]
    | none, none => []

/-- Newline-joining of script fragments, for the spec-side description. -/
def join_lines : List String → String
  | [] => ""
  | [s] => s
  | s :: rest => s ++ "\n" ++ join_lines rest

/-- Restatement of the spec's description of `install`: one combined script
made of the package-manager step (when `packages` is `Some`) followed by the
install script text (when present), under `set -e`; nothing when neither
part exists.  Used to compare the source's four-way match against the
spec's uniform concatenation rule. -/
def install_combined_spec (distro_packages_installer : String → String)
    (packages : Option (List String)) (script : Option String) : List String :=
  let parts :=
    (match packages with
      | some a => [distro_packages_installer (String.intercalate " " a)]
      | none => [])
    ++ (match script with
      | some t => [t]
      | none => [])
  match parts with
  | [] => []
  | _ => ["#! /bin/bash\nset -e\n" ++ join_lines parts]

/-! Generic facts about the stable insertion sort. -/

theorem mem_ordered_insert {α : Type} (key : α → Int) (x : α) (l : List α)
    (a : α) : a ∈ ordered_insert key x l ↔ a = x ∨ a ∈ l := by
  induction l with
  | nil => simp [ordered_insert]
  | cons y l ih =>
    rw [ordered_insert]
    by_cases h : key x ≤ key y
    · rw [if_pos h]
      simp [List.mem_cons]
    · rw [if_neg h]
      simp [List.mem_cons, ih]
      tauto

theorem pairwise_ordered_insert {α : Type} (key : α → Int) (x : α)
    (l : List α) (h : l.Pairwise (fun a b => key a ≤ key b)) :
    (ordered_insert key x l).Pairwise (fun a b => key a ≤ key b) := by
  induction l with
  | nil => simp [ordered_insert]
  | cons y l ih =>
    rcases List.pairwise_cons.mp h with ⟨hy, hl⟩
    rw [ordered_insert]
    by_cases hxy : key x ≤ key y
    · rw [if_pos hxy]
      refine List.pairwise_cons.mpr ⟨?_, h⟩
      intro z hz
      rcases List.mem_cons.mp hz with rfl | hz
      · exact hxy
      · exact le_trans hxy (hy z hz)
    · rw [if_neg hxy]
      refine List.pairwise_cons.mpr ⟨?_, ih hl⟩
      intro z hz
      rcases (mem_ordered_insert key x l z).mp hz with rfl | hz
      · exact le_of_lt (lt_of_not_le hxy)
      · exact hy z hz

theorem pairwise_sort_by_key {α : Type} (key : α → Int) (l : List α) :
    (sort_by_key key l).Pairwise (fun a b => key a ≤ key b) := by
  induction l with
  | nil => simp [sort_by_key]
  | cons x l ih => exact pairwise_ordered_insert key x _ ih

theorem perm_ordered_insert {α : Type} (key : α → Int) (x : α) (l : List α) :
    List.Perm (ordered_insert key x l) (x :: l) := by
  induction l with
  | nil => simp [ordered_insert]
  | cons y l ih =>
    rw [ordered_insert]
    by_cases h : key x ≤ key y
    · rw [if_pos h]
    · rw [if_neg h]
      exact List.Perm.trans (List.Perm.cons y ih) (List.Perm.swap x y l)

theorem perm_sort_by_key {α : Type} (key : α → Int) (l : List α) :
    List.Perm (sort_by_key key l) l := by
  induction l with
  | nil => simp [sort_by_key]
  | cons x l ih =>
    exact List.Perm.trans (perm_ordered_insert key x _) (List.Perm.cons x ih)

theorem filter_ordered_insert_eq {α : Type} (key : α → Int) (k : Int) (x : α)
    (l : List α) (hx : key x = k) :
    (ordered_insert key x l).filter (fun a => key a == k) =
      x :: l.filter (fun a => key a == k) := by
  induction l with
  | nil => simp [ordered_insert, List.filter_cons, hx]
  | cons y l ih =>
    rw [ordered_insert]
    by_cases h : key x ≤ key y
    · rw [if_pos h]
      simp [List.filter_cons, hx]
    · rw [if_neg h]
      have hy : ¬ key y = k := by
        intro hk
        rw [hx] at h
        rw [hk] at h
        exact h le_rfl
      simp [List.filter_cons, hy, ih]

theorem filter_ordered_insert_ne {α : Type} (key : α → Int) (k : Int) (x : α)
    (l : List α) (hx : ¬ key x = k) :
    (ordered_insert key x l).filter (fun a => key a == k) =
      l.filter (fun a => key a == k) := by
  induction l with
  | nil => simp [ordered_insert, List.filter_cons, hx]
  | cons y l ih =>
    rw [ordered_insert]
    by_cases h : key x ≤ key y
    · rw [if_pos h]
      simp [List.filter_cons, hx]
    · rw [if_neg h]
      simp [List.filter_cons, ih]

theorem filter_sort_by_key {α : Type} (key : α → Int) (k : Int) (l : List α) :
    (sort_by_key key l).filter (fun a => key a == k) =
      l.filter (fun a => key a == k) := by
  induction l with
  | nil => rfl
  | cons x l ih =>
    rw [sort_by_key]
    by_cases hx : key x = k
    · rw [filter_ordered_insert_eq key k x _ hx, List.filter_cons]
      simp [hx, ih]
    · rw [filter_ordered_insert_ne key k x _ hx, List.filter_cons]
      simp [hx, ih]


/-! Generic facts about the parse loop. -/

/-- Shared shape of the three unsorted parses. -/
def parse_catalog_raw {α : Type} (parse1 : Json → Except CatalogError α)
    (doc : Json) : Except CatalogError (List α) :=
  match (doc.get "profiles").asArray with
  | some js => parse_list parse1 js
  | none => .ok []

theorem parse_usb_profiles_raw_eq (env : ParseEnv) (doc : Json) :
    parse_usb_profiles_raw env doc = parse_catalog_raw (parse_usb_profile env) doc := rfl

theorem parse_bt_profiles_raw_eq (env : ParseEnv) (doc : Json) :
    parse_bt_profiles_raw env doc = parse_catalog_raw (parse_bt_profile env) doc := rfl

theorem parse_dmi_profiles_raw_eq (env : ParseEnv) (doc : Json) :
    parse_dmi_profiles_raw env doc = parse_catalog_raw (parse_dmi_profile env) doc := rfl

theorem parse_catalog_loop_eq {α : Type} (parse1 : Json → Except CatalogError α)
    (key : α → Int) (js : List Json) : ∀ acc : List α,
    parse_catalog_loop parse1 key acc js =
      (parse_list parse1 js).map (fun r => r.foldl (catalog_append key) acc) := by
  induction js with
  | nil => intro acc; rfl
  | cons j js ih =>
    intro acc
    rw [parse_catalog_loop, parse_list]
    cases parse1 j with
    | error e => rfl
    | ok p =>
      dsimp only
      rw [ih]
      cases parse_list parse1 js with
      | error e => rfl
      | ok ps => rfl

theorem foldl_catalog_append_filter {α : Type} (key : α → Int) (k : Int)
    (r : List α) : ∀ acc : List α,
    (r.foldl (catalog_append key) acc).filter (fun a => key a == k) =
      acc.filter (fun a => key a == k) ++ r.filter (fun a => key a == k) := by
  induction r with
  | nil => intro acc; simp
  | cons p r ih =>
    intro acc
    rw [List.foldl_cons, ih, catalog_append, filter_sort_by_key]
    rw [List.filter_append, List.filter_cons]
    by_cases hp : key p = k
    · simp [hp]
    · simp [hp]

theorem foldl_catalog_append_pairwise {α : Type} (key : α → Int)
    (r : List α) : ∀ acc : List α,
    acc.Pairwise (fun a b => key a ≤ key b) →
    (r.foldl (catalog_append key) acc).Pairwise (fun a b => key a ≤ key b) := by
  induction r with
  | nil => intro acc h; exact h
  | cons p r ih =>
    intro acc _
    rw [List.foldl_cons]
    exact ih _ (pairwise_sort_by_key key _)

theorem foldl_catalog_append_perm {α : Type} (key : α → Int)
    (r : List α) : ∀ acc : List α,
    List.Perm (r.foldl (catalog_append key) acc) (acc ++ r) := by
  induction r with
  | nil => intro acc; simp
  | cons p r ih =>
    intro acc
    rw [List.foldl_cons]
    refine List.Perm.trans (ih _) ?_
    have h1 : List.Perm (catalog_append key acc p) (acc ++ [p]) :=
      perm_sort_by_key key _
    refine List.Perm.trans (h1.append_right r) ?_
    rw [List.append_assoc]
    simp

theorem parse_catalog_sorted {α : Type} (parse1 : Json → Except CatalogError α)
    (key : α → Int) (doc : Json) (l : List α)
    (h : parse_catalog parse1 key doc = .ok l) :
    l.Pairwise (fun a b => key a ≤ key b) := by
  rw [parse_catalog] at h
  cases harr : (doc.get "profiles").asArray with
  | none =>
    simp only [harr] at h
    cases h
    exact List.Pairwise.nil
  | some js =>
    simp only [harr] at h
    rw [parse_catalog_loop_eq] at h
    cases hp : parse_list parse1 js with
    | error e => rw [hp] at h; cases h
    | ok r =>
      rw [hp] at h
      cases h
      exact foldl_catalog_append_pairwise key r [] List.Pairwise.nil

theorem parse_catalog_stable {α : Type} (parse1 : Json → Except CatalogError α)
    (key : α → Int) (doc : Json) (l r : List α)
    (h : parse_catalog parse1 key doc = .ok l)
    (hr : parse_catalog_raw parse1 doc = .ok r) (k : Int) :
    l.filter (fun a => key a == k) = r.filter (fun a => key a == k) := by
  rw [parse_catalog] at h
  rw [parse_catalog_raw] at hr
  cases harr : (doc.get "profiles").asArray with
  | none =>
    simp only [harr] at h hr
    cases h; cases hr
    rfl
  | some js =>
    simp only [harr] at h hr
    rw [parse_catalog_loop_eq, hr] at h
    cases h
    rw [foldl_catalog_append_filter]
    rfl

theorem parse_catalog_perm {α : Type} (parse1 : Json → Except CatalogError α)
    (key : α → Int) (doc : Json) (l r : List α)
    (h : parse_catalog parse1 key doc = .ok l)
    (hr : parse_catalog_raw parse1 doc = .ok r) :
    List.Perm l r := by
  rw [parse_catalog] at h
  rw [parse_catalog_raw] at hr
  cases harr : (doc.get "profiles").asArray with
  | none =>
    simp only [harr] at h hr
    cases h; cases hr
    exact List.Perm.refl _
  | some js =>
    simp only [harr] at h hr
    rw [parse_catalog_loop_eq, hr] at h
    cases h
    exact foldl_catalog_append_perm key r []

theorem parse_list_error_of_mem {α : Type}
    (parse1 : Json → Except CatalogError α) (err : CatalogError)
    (herr : ∀ j e, parse1 j = .error e → e = err) (js : List Json) (jp : Json)
    (hmem : jp ∈ js) (hbad : parse1 jp = .error err) :
    parse_list parse1 js = .error err := by
  induction js with
  | nil => cases hmem
  | cons j js ih =>
    rw [parse_list]
    cases hj : parse1 j with
    | error e => rw [herr j e hj]
    | ok p =>
      rcases List.mem_cons.mp hmem with rfl | hmem2
      · rw [hj] at hbad; cases hbad
      · rw [ih hmem2]

theorem parse_catalog_loop_error {α : Type}
    (parse1 : Json → Except CatalogError α) (key : α → Int)
    (err : CatalogError) (herr : ∀ j e, parse1 j = .error e → e = err)
    (js : List Json) (jp : Json) (hmem : jp ∈ js)
    (hbad : parse1 jp = .error err) (acc : List α) :
    parse_catalog_loop parse1 key acc js = .error err := by
  rw [parse_catalog_loop_eq, parse_list_error_of_mem parse1 err herr js jp hmem hbad]
  rfl


/-! Facts about the matching pass and its slot writes. -/

theorem available_pass_of_filter_nil {α : Type} (m : α → Bool) (ps : List α)
    (h : ps.filter m = []) (st : SlotState α) :
    available_pass m ps [] st = st := by
  induction ps generalizing st with
  | nil => rfl
  | cons p ps ih =>
    rw [List.filter_cons] at h
    by_cases hm : m p = true
    · rw [if_pos hm] at h
      cases h
    · rw [if_neg hm] at h
      have hm2 : m p = false := Bool.eq_false_iff.mpr hm
      simp only [available_pass, hm2, if_false, List.isEmpty_nil, if_true]
      exact ih h st

theorem available_pass_slot_writes {α : Type} (m : α → Bool) (ps : List α) :
    ∀ (acc : List α) (st : SlotState α), ps ≠ [] → acc ++ ps.filter m ≠ [] →
    (available_pass m ps acc st).slot = some (acc ++ ps.filter m) ∧
    st.writes + 1 ≤ (available_pass m ps acc st).writes := by
  induction ps with
  | nil => intro acc st hne; cases hne rfl
  | cons p ps ih =>
    intro acc st _ hfull
    have hacc2 :
        (if m p then acc ++ [p] else acc) ++ ps.filter m =
          acc ++ (p :: ps).filter m := by
      rw [List.filter_cons]
      by_cases hm : m p
      · simp [hm]
      · simp [hm]
    simp only [available_pass]
    by_cases hps : ps = []
    · subst hps
      have hne2 : (if m p then acc ++ [p] else acc) ≠ [] := by
        intro hz
        apply hfull
        rw [← hacc2, hz]
        rfl
      have hne3 : ((if m p then acc ++ [p] else acc)).isEmpty = false := by
        rw [List.isEmpty_eq_false]
        exact hne2
      rw [hne3]
      simp only [available_pass]
      constructor
      · rw [← hacc2]
        simp
      · simp
    · have hfull2 : (if m p then acc ++ [p] else acc) ++ ps.filter m ≠ [] := by
        rw [hacc2]; exact hfull
      rcases ih (if m p then acc ++ [p] else acc)
          (if ((if m p then acc ++ [p] else acc)).isEmpty then st
            else { slot := some (if m p then acc ++ [p] else acc),
                   writes := st.writes + 1 }) hps hfull2 with ⟨h1, h2⟩
      constructor
      · rw [h1, hacc2]
      · refine le_trans ?_ h2
        by_cases hz : ((if m p then acc ++ [p] else acc)).isEmpty
        · rw [if_pos hz]
        · rw [if_neg hz]
          simp

theorem set_available_profiles_generic_slot_nil {α : Type} (m : α → Bool)
    (l : List α) (h : l.filter m = []) :
    set_available_profiles_generic m l = { slot := none, writes := 0 } := by
  rw [set_available_profiles_generic, available_pass_of_filter_nil m l h]

theorem set_available_profiles_generic_slot_ne {α : Type} (m : α → Bool)
    (l : List α) (h : l.filter m ≠ []) :
    (set_available_profiles_generic m l).slot = some (l.filter m) ∧
    1 ≤ (set_available_profiles_generic m l).writes := by
  have hl : l ≠ [] := by
    intro hz
    subst hz
    exact h rfl
  have := available_pass_slot_writes m l [] { slot := none, writes := 0 } hl
    (by simpa using h)
  simpa using this

theorem set_available_profiles_generic_writes_zero_iff {α : Type}
    (m : α → Bool) (l : List α) :
    (set_available_profiles_generic m l).writes = 0 ↔ l.filter m = [] := by
  constructor
  · intro hw
    by_contra h
    have := (set_available_profiles_generic_slot_ne m l h).2
    omega
  · intro h
    rw [set_available_profiles_generic_slot_nil m l h]

theorem set_available_profiles_generic_slot_none_iff {α : Type}
    (m : α → Bool) (l : List α) :
    (set_available_profiles_generic m l).slot = none ↔ l.filter m = [] := by
  constructor
  · intro hs
    by_contra h
    have := (set_available_profiles_generic_slot_ne m l h).1
    rw [hs] at this
    cases this
  · intro h
    rw [set_available_profiles_generic_slot_nil m l h]

theorem result_list_eq_filter {α : Type} (m : α → Bool) (l : List α) :
    (set_available_profiles_generic m l).result_list = l.filter m := by
  by_cases h : l.filter m = []
  · rw [SlotState.result_list, set_available_profiles_generic_slot_nil m l h, h]
    rfl
  · rw [SlotState.result_list, (set_available_profiles_generic_slot_ne m l h).1]
    rfl

theorem mem_result_list_matching {α : Type} (m : α → Bool) (l : List α)
    (p : α) (hp : p ∈ (set_available_profiles_generic m l).result_list) :
    m p = true := by
  rw [result_list_eq_filter] at hp
  exact List.of_mem_filter hp

/-! Concrete records used by the concrete theorems below. -/

/-- A fixed parse environment: English locale, `t!("unknown") = "Unknown"`. -/
def env0 : ParseEnv := { locale := "en_US", t_unknown := "Unknown" }

/-- A usb device with simple attribute values. -/
def usb_device_w : CfhdbUsbDevice :=
  { manufacturer_string_index := "", product_string_index := "",
    serial_number_string_index := "", protocol_code := "",
    class_code := "03", vendor_id := "1a2b", product_id := "3c4d",
    usb_version := "", bus_number := 0, port_number := 0, address := 0,
    sysfs_busid := "", kernel_driver := "", started := none,
    enabled := true, speed := "" }

/-- A usb profile whose optional parts are all absent and lists empty. -/
def usb_profile_base : CfhdbUsbProfile :=
  { codename := "base", i18n_desc := "", icon_name := "package-x-generic",
    license := "Unknown", class_codes := [], vendor_ids := [],
    product_ids := [], blacklisted_class_codes := [],
    blacklisted_vendor_ids := [], blacklisted_product_ids := [],
    packages := none, check_script := "false", install_script := none,
    remove_script := none, experimental := false, removable := false,
    veiled := false, priority := 0 }

/-- A usb profile that whitelists every device. -/
def usb_profile_any : CfhdbUsbProfile :=
  { usb_profile_base with
    codename := "any"
    class_codes := ["*"]
    vendor_ids := ["*"]
    product_ids := ["*"] }

/-- A usb profile that whitelists every device but blacklists every class. -/
def usb_profile_bl : CfhdbUsbProfile :=
  { usb_profile_any with
    codename := "bl"
    blacklisted_class_codes := ["*"] }

/-- A Bluetooth device with simple attribute values; its class id is the
`"0102"` of the end-to-end scenario. -/
def bt_device_w : CfhdbBtDevice :=
  { bt_alias := "", name := "devname", class_id := "0102",
    modalias_vendor_id := "mv", modalias_product_id := "mp",
    modalias_device_id := "md", adapter := "", paired := false,
    connected := false, trusted := false, blocked := false,
    address := "", battery_level := 0 }

/-- A Bluetooth profile whose optional parts are all absent, lists empty. -/
def bt_profile_base : CfhdbBtProfile :=
  { codename := "base", i18n_desc := "", icon_name := "package-x-generic",
    license := "Unknown", class_ids := [], bt_names := [],
    modalias_vendor_ids := [], modalias_device_ids := [],
    modalias_product_ids := [], blacklisted_class_ids := [],
    blacklisted_bt_names := [], blacklisted_modalias_vendor_ids := [],
    blacklisted_modalias_device_ids := [], blacklisted_modalias_product_ids := [],
    packages := none, check_script := "false", install_script := none,
    remove_script := none, experimental := false, removable := false,
    veiled := false, priority := 0 }

/-- A Bluetooth profile whose `class_ids` whitelist matches nothing while
all other whitelist fields hold the wildcard. -/
def bt_profile_c1 : CfhdbBtProfile :=
  { bt_profile_base with
    codename := "ids-only"
    class_ids := ["ffff"]
    bt_names := ["*"]
    modalias_vendor_ids := ["*"]
    modalias_device_ids := ["*"]
    modalias_product_ids := ["*"] }

/-- A Bluetooth profile that whitelists every device but blacklists every
name. -/
def bt_profile_bl : CfhdbBtProfile :=
  { bt_profile_base with
    codename := "bl"
    bt_names := ["*"]
    modalias_vendor_ids := ["*"]
    modalias_device_ids := ["*"]
    modalias_product_ids := ["*"]
    blacklisted_bt_names := ["*"] }

/-- A DMI device with simple attribute values. -/
def dmi_device_w : CfhdbDmiDevice :=
  { bios_date := "", bios_release := "", bios_vendor := "bv",
    bios_version := "", board_asset_tag := "bat", board_name := "bn",
    board_vendor := "bvd", board_version := "", product_family := "pf",
    product_name := "pn", product_sku := "ps", sys_vendor := "sv" }

/-- A DMI profile whose optional parts are all absent, lists empty. -/
def dmi_profile_base : CfhdbDmiProfile :=
  { codename := "base", i18n_desc := "", icon_name := "package-x-generic",
    license := "Unknown", bios_vendors := [], board_asset_tags := [],
    board_names := [], board_vendors := [], product_families := [],
    product_names := [], product_skus := [], sys_vendors := [],
    blacklisted_bios_vendors := [], blacklisted_board_asset_tags := [],
    blacklisted_board_names := [], blacklisted_board_vendors := [],
    blacklisted_product_families := [], blacklisted_product_names := [],
    blacklisted_product_skus := [], blacklisted_sys_vendors := [],
    packages := none, check_script := "false", install_script := none,
    remove_script := none, experimental := false, removable := false,
    veiled := false, priority := 0 }

/-- A DMI profile that whitelists every device but blacklists every
system vendor. -/
def dmi_profile_bl : CfhdbDmiProfile :=
  { dmi_profile_base with
    codename := "bl"
    bios_vendors := ["*"]
    board_asset_tags := ["*"]
    board_names := ["*"]
    board_vendors := ["*"]
    product_families := ["*"]
    product_names := ["*"]
    product_skus := ["*"]
    sys_vendors := ["*"]
    blacklisted_sys_vendors := ["*"] }

/-- The first profile entry of the spec's end-to-end scenario catalog. -/
def scenario_entry_a : Json :=
  .obj [("codename", .str "a"), ("class_ids", .arr [.str "*"]),
    ("priority", .num 5), ("check_script", .str "true")]

/-- The second profile entry of the spec's end-to-end scenario catalog. -/
def scenario_entry_b : Json :=
  .obj [("codename", .str "b"), ("class_ids", .arr [.str "0102"]),
    ("priority", .num 1), ("check_script", .str "false")]

/-- The spec's end-to-end scenario catalog document. -/
def scenario_doc : Json :=
  .obj [("profiles", .arr [scenario_entry_a, scenario_entry_b])]

/-- Profile `"a"` of the scenario as a record (packages read as absent). -/
def scenario_profile_a : CfhdbBtProfile :=
  { bt_profile_base with
    codename := "a"
    class_ids := ["*"]
    check_script := "true"
    install_script := some ""
    remove_script := some ""
    priority := 5 }

/-- Profile `"b"` of the scenario as a record (packages read as absent). -/
def scenario_profile_b : CfhdbBtProfile :=
  { bt_profile_base with
    codename := "b"
    class_ids := ["0102"]
    check_script := "false"
    install_script := some ""
    remove_script := some ""
    priority := 1 }

/-- Raw text of the body returned by the non-success HTTP response. -/
def body_text : String := "body-json"

/-- Raw text stored in the pre-existing cache file. -/
def cache_text : String := "cache-json"

/-- The document the response body deserializes to. -/
def doc_body : Json :=
  .obj [("profiles", .arr [.obj [("codename", .str "from-body"),
    ("packages", .arr []), ("priority", .num 0)]])]

/-- The document the cache file deserializes to. -/
def doc_cache : Json :=
  .obj [("profiles", .arr [.obj [("codename", .str "from-cache"),
    ("packages", .arr []), ("priority", .num 0)]])]

/-- A concrete `serde_json::from_str`: deserializes exactly the two texts
above. -/
def from_str0 : String → Option Json := fun s =>
  if s = body_text then some doc_body
  else if s = cache_text then some doc_cache
  else none

/-- A fetch world where the server answers with HTTP status 500 and a valid
cache file exists. -/
def world500 : FetchEnv :=
  { response := some { status := 500, body := body_text },
    cache_file := some cache_text }

/-- The profile record parsed from the 500-response body. -/
def usb_profile_from_body : CfhdbUsbProfile :=
  { usb_profile_base with
    codename := "from-body"
    packages := some []
    install_script := some ""
    remove_script := some "" }

/-- The profile record parsed from the cache text. -/
def usb_profile_from_cache : CfhdbUsbProfile :=
  { usb_profile_base with
    codename := "from-cache"
    packages := some []
    install_script := some ""
    remove_script := some "" }


/-! Helper lemmas about the profile entry parsers. -/

theorem parse_packages_error (j : Json) (e : CatalogError)
    (h : parse_packages j = .error e) : e = .invalid_profile_packages := by
  rw [parse_packages] at h
  cases hs : (j.get "packages").asStr with
  | some s => rw [hs] at h; cases h
  | none =>
    rw [hs] at h
    cases ha : (j.get "packages").asArray with
    | some xs => rw [ha] at h; cases h
    | none =>
      rw [ha] at h
      cases h
      rfl

theorem parse_packages_bad (j : Json)
    (hs : (j.get "packages").asStr = none)
    (ha : (j.get "packages").asArray = none) :
    parse_packages j = .error .invalid_profile_packages := by
  rw [parse_packages, hs, ha]

theorem parse_usb_profile_error (env : ParseEnv) (j : Json) (e : CatalogError)
    (h : parse_usb_profile env j = .error e) : e = .invalid_profile_packages := by
  rw [parse_usb_profile] at h
  cases hp : parse_packages j with
  | error e2 =>
    rw [hp] at h
    cases h
    exact parse_packages_error j e hp
  | ok pk => rw [hp] at h; cases h

theorem parse_bt_profile_error (env : ParseEnv) (j : Json) (e : CatalogError)
    (h : parse_bt_profile env j = .error e) : e = .invalid_profile_packages := by
  rw [parse_bt_profile] at h
  cases hp : parse_packages j with
  | error e2 =>
    rw [hp] at h
    cases h
    exact parse_packages_error j e hp
  | ok pk => rw [hp] at h; cases h

theorem parse_dmi_profile_error (env : ParseEnv) (j : Json) (e : CatalogError)
    (h : parse_dmi_profile env j = .error e) : e = .invalid_profile_packages := by
  rw [parse_dmi_profile] at h
  cases hp : parse_packages j with
  | error e2 =>
    rw [hp] at h
    cases h
    exact parse_packages_error j e hp
  | ok pk => rw [hp] at h; cases h

theorem parse_usb_profile_bad (env : ParseEnv) (j : Json)
    (hs : (j.get "packages").asStr = none)
    (ha : (j.get "packages").asArray = none) :
    parse_usb_profile env j = .error .invalid_profile_packages := by
  rw [parse_usb_profile, parse_packages_bad j hs ha]

theorem parse_bt_profile_bad (env : ParseEnv) (j : Json)
    (hs : (j.get "packages").asStr = none)
    (ha : (j.get "packages").asArray = none) :
    parse_bt_profile env j = .error .invalid_profile_packages := by
  rw [parse_bt_profile, parse_packages_bad j hs ha]

theorem parse_dmi_profile_bad (env : ParseEnv) (j : Json)
    (hs : (j.get "packages").asStr = none)
    (ha : (j.get "packages").asArray = none) :
    parse_dmi_profile env j = .error .invalid_profile_packages := by
  rw [parse_dmi_profile, parse_packages_bad j hs ha]

/-- C1: for every device and profile, the profile matches iff it is not
blacklisted and every whitelist field contains `*` or the device's
attribute.  This FAILS for Bluetooth: the source's whitelist loop never
consults `class_ids` (it is parsed, stored and blacklist-checked, but absent
from the loop's field array), so a profile whose `class_ids` contains
neither `*` nor the device's class id still matches when its other four
whitelist fields do.  The theorem exhibits the divergence on the code. -/
theorem c1_bt_whitelist_ignores_class_ids :
    bt_profile_c1.class_ids.contains "*" = false ∧
    bt_profile_c1.class_ids.contains bt_device_w.class_id = false ∧
    bt_blacklist_hit bt_device_w bt_profile_c1 = false ∧
    bt_matching bt_device_w bt_profile_c1 = true ∧
    (CfhdbBtDevice.set_available_profiles [bt_profile_c1] bt_device_w).result_list
      = [bt_profile_c1] := by
  refine ⟨by decide, by decide, by decide, by decide, by decide⟩

/-- C2: a profile with any blacklist field containing `*` or the device's
corresponding attribute is excluded from the matching result, in all three
domains, regardless of its whitelist fields. -/
theorem c2_blacklist_excludes :
    (∀ (catalog : List CfhdbUsbProfile) (d : CfhdbUsbDevice) (p : CfhdbUsbProfile),
      usb_blacklist_hit d p = true →
      p ∉ (CfhdbUsbDevice.set_available_profiles catalog d).result_list) ∧
    (∀ (catalog : List CfhdbBtProfile) (d : CfhdbBtDevice) (p : CfhdbBtProfile),
      bt_blacklist_hit d p = true →
      p ∉ (CfhdbBtDevice.set_available_profiles catalog d).result_list) ∧
    (∀ (catalog : List CfhdbDmiProfile) (d : CfhdbDmiDevice) (p : CfhdbDmiProfile),
      dmi_blacklist_hit d p = true →
      p ∉ (CfhdbDmiDevice.set_available_profiles catalog d).result_list) := by
  refine ⟨?_, ?_, ?_⟩
  · intro catalog d p hhit hmem
    have hm := mem_result_list_matching (usb_matching d) catalog p hmem
    rw [usb_matching, if_pos hhit] at hm
    cases hm
  · intro catalog d p hhit hmem
    have hm := mem_result_list_matching (bt_matching d) catalog p hmem
    rw [bt_matching, if_pos hhit] at hm
    cases hm
  · intro catalog d p hhit hmem
    have hm := mem_result_list_matching (dmi_matching d) catalog p hmem
    rw [dmi_matching, if_pos hhit] at hm
    cases hm

/-- Witness for C2 at concrete blacklisted profiles in all three domains. -/
theorem c2_blacklist_excludes_witness :
    (usb_blacklist_hit usb_device_w usb_profile_bl = true ∧
      usb_profile_bl ∉
        (CfhdbUsbDevice.set_available_profiles [usb_profile_bl] usb_device_w).result_list) ∧
    (bt_blacklist_hit bt_device_w bt_profile_bl = true ∧
      bt_profile_bl ∉
        (CfhdbBtDevice.set_available_profiles [bt_profile_bl] bt_device_w).result_list) ∧
    (dmi_blacklist_hit dmi_device_w dmi_profile_bl = true ∧
      dmi_profile_bl ∉
        (CfhdbDmiDevice.set_available_profiles [dmi_profile_bl] dmi_device_w).result_list) :=
  ⟨⟨by decide, c2_blacklist_excludes.1 [usb_profile_bl] usb_device_w usb_profile_bl (by decide)⟩,
    ⟨by decide, c2_blacklist_excludes.2.1 [bt_profile_bl] bt_device_w bt_profile_bl (by decide)⟩,
    ⟨by decide, c2_blacklist_excludes.2.2 [dmi_profile_bl] dmi_device_w dmi_profile_bl (by decide)⟩⟩


/-- C9 counterexample: with a catalog of two profiles that both match, the
device's slot is assigned on BOTH loop iterations — the write sits inside
the per-profile loop, not after it — so "written at most once" fails. -/
theorem c9_counterexample :
    (CfhdbUsbDevice.set_available_profiles [usb_profile_any, usb_profile_any]
      usb_device_w).writes = 2 ∧
    (CfhdbUsbDevice.set_available_profiles [usb_profile_any, usb_profile_any]
      usb_device_w).slot = some [usb_profile_any, usb_profile_any] := by
  refine ⟨by decide, by decide⟩

/-- C9 (amended): the slot starts unset and is assigned on every loop
iteration from the first match onward (so possibly many times); it is never
assigned when no profile matches, hence after the pass the slot is unset
exactly when no profile matched, and otherwise holds the full matched
list.  Stated for the usb and Bluetooth domains the claim cites. -/
theorem c9_amended :
    (∀ (catalog : List CfhdbUsbProfile) (d : CfhdbUsbDevice),
      ((CfhdbUsbDevice.set_available_profiles catalog d).slot = none ↔
        catalog.filter (usb_matching d) = []) ∧
      ((CfhdbUsbDevice.set_available_profiles catalog d).writes = 0 ↔
        catalog.filter (usb_matching d) = []) ∧
      (catalog.filter (usb_matching d) ≠ [] →
        (CfhdbUsbDevice.set_available_profiles catalog d).slot =
          some (catalog.filter (usb_matching d)))) ∧
    (∀ (catalog : List CfhdbBtProfile) (d : CfhdbBtDevice),
      ((CfhdbBtDevice.set_available_profiles catalog d).slot = none ↔
        catalog.filter (bt_matching d) = []) ∧
      ((CfhdbBtDevice.set_available_profiles catalog d).writes = 0 ↔
        catalog.filter (bt_matching d) = []) ∧
      (catalog.filter (bt_matching d) ≠ [] →
        (CfhdbBtDevice.set_available_profiles catalog d).slot =
          some (catalog.filter (bt_matching d)))) := by
  constructor
  · intro catalog d
    exact ⟨set_available_profiles_generic_slot_none_iff (usb_matching d) catalog,
      set_available_profiles_generic_writes_zero_iff (usb_matching d) catalog,
      fun h => (set_available_profiles_generic_slot_ne (usb_matching d) catalog h).1⟩
  · intro catalog d
    exact ⟨set_available_profiles_generic_slot_none_iff (bt_matching d) catalog,
      set_available_profiles_generic_writes_zero_iff (bt_matching d) catalog,
      fun h => (set_available_profiles_generic_slot_ne (bt_matching d) catalog h).1⟩

/-- Witness for the amended C9 at a concrete matching catalog. -/
theorem c9_amended_witness :
    [usb_profile_any].filter (usb_matching usb_device_w) ≠ [] ∧
    (CfhdbUsbDevice.set_available_profiles [usb_profile_any] usb_device_w).slot =
      some ([usb_profile_any].filter (usb_matching usb_device_w)) :=
  ⟨by decide, ((c9_amended.1 [usb_profile_any] usb_device_w).2.2) (by decide)⟩

/-- C10: a parsed install/remove script is `None` exactly when the JSON
value at the key is the sentinel string `"Option::is_none"`; an absent or
non-string value yields `Some ""`, and the three profile parsers populate
their script fields with exactly this rule. -/
theorem c10_script_sentinel :
    (∀ (j : Json) (key : String),
      parse_optional_script j key = none ↔
        (j.get key).asStr = some "Option::is_none") ∧
    (∀ (j : Json) (key : String),
      (j.get key).asStr = none → parse_optional_script j key = some "") ∧
    (∀ (env : ParseEnv) (j : Json) (p : CfhdbUsbProfile),
      parse_usb_profile env j = .ok p →
      p.install_script = parse_optional_script j "install_script" ∧
      p.remove_script = parse_optional_script j "remove_script") ∧
    (∀ (env : ParseEnv) (j : Json) (p : CfhdbBtProfile),
      parse_bt_profile env j = .ok p →
      p.install_script = parse_optional_script j "install_script" ∧
      p.remove_script = parse_optional_script j "remove_script") ∧
    (∀ (env : ParseEnv) (j : Json) (p : CfhdbDmiProfile),
      parse_dmi_profile env j = .ok p →
      p.install_script = parse_optional_script j "install_script" ∧
      p.remove_script = parse_optional_script j "remove_script") := by
  refine ⟨?_, ?_, ?_, ?_, ?_⟩
  · intro j key
    rw [parse_optional_script]
    cases hs : (j.get key).asStr with
    | none => simp
    | some s =>
      by_cases hsent : s = "Option::is_none"
      · simp [hsent]
      · simp [hsent]
  · intro j key hs
    rw [parse_optional_script, hs]
    rfl
  · intro env j p h
    rw [parse_usb_profile] at h
    cases hp : parse_packages j with
    | error e => rw [hp] at h; cases h
    | ok pk =>
      rw [hp] at h
      cases h
      exact ⟨rfl, rfl⟩
  · intro env j p h
    rw [parse_bt_profile] at h
    cases hp : parse_packages j with
    | error e => rw [hp] at h; cases h
    | ok pk =>
      rw [hp] at h
      cases h
      exact ⟨rfl, rfl⟩
  · intro env j p h
    rw [parse_dmi_profile] at h
    cases hp : parse_packages j with
    | error e => rw [hp] at h; cases h
    | ok pk =>
      rw [hp] at h
      cases h
      exact ⟨rfl, rfl⟩

/-- Witness for C10: the empty object (absent keys) parses to `Some ""`
scripts, and the sentinel yields `None`. -/
theorem c10_script_sentinel_witness :
    parse_optional_script (.obj []) "install_script" = some "" ∧
    (parse_optional_script
      (.obj [("remove_script", .str "Option::is_none")]) "remove_script" = none) :=
  ⟨c10_script_sentinel.2.1 (.obj []) "install_script" rfl,
    (c10_script_sentinel.1
      (.obj [("remove_script", .str "Option::is_none")]) "remove_script").mpr rfl⟩


/-- A two-entry usb catalog document with priorities 5 and 1. -/
def doc_two : Json :=
  .obj [("profiles", .arr [
    .obj [("codename", .str "a"), ("packages", .str "inline"),
      ("priority", .num 5)],
    .obj [("codename", .str "b"), ("packages", .str "inline"),
      ("priority", .num 1)]])]

/-- The records `doc_two` parses to, sorted ascending by priority. -/
def doc_two_parsed : List CfhdbUsbProfile :=
  [{ usb_profile_base with
      codename := "b"
      install_script := some ""
      remove_script := some ""
      priority := 1 },
    { usb_profile_base with
      codename := "a"
      install_script := some ""
      remove_script := some ""
      priority := 5 }]

/-- C3: every parsed catalog is ascending by priority; the re-sort after
each append is stable (for every priority value, the profiles carrying it
appear in insertion order — compared against the unsorted traversal
`parse_*_profiles_raw` — and the sorted catalog is a permutation of it);
and the matching result equals the catalog filtered by the match predicate,
hence preserves the catalog's relative order (it is a sublist). -/
theorem c3_catalog_sorted_stable_order :
    (∀ (env : ParseEnv) (doc : Json) (l : List CfhdbUsbProfile),
      parse_usb_profiles env doc = .ok l →
      l.Pairwise (fun a b => a.priority ≤ b.priority) ∧
      ∀ r, parse_usb_profiles_raw env doc = .ok r →
        (∀ k : Int, l.filter (fun p => p.priority == k) =
          r.filter (fun p => p.priority == k)) ∧ List.Perm l r) ∧
    (∀ (env : ParseEnv) (doc : Json) (l : List CfhdbBtProfile),
      parse_bt_profiles env doc = .ok l →
      l.Pairwise (fun a b => a.priority ≤ b.priority) ∧
      ∀ r, parse_bt_profiles_raw env doc = .ok r →
        (∀ k : Int, l.filter (fun p => p.priority == k) =
          r.filter (fun p => p.priority == k)) ∧ List.Perm l r) ∧
    (∀ (env : ParseEnv) (doc : Json) (l : List CfhdbDmiProfile),
      parse_dmi_profiles env doc = .ok l →
      l.Pairwise (fun a b => a.priority ≤ b.priority) ∧
      ∀ r, parse_dmi_profiles_raw env doc = .ok r →
        (∀ k : Int, l.filter (fun p => p.priority == k) =
          r.filter (fun p => p.priority == k)) ∧ List.Perm l r) ∧
    (∀ (catalog : List CfhdbUsbProfile) (d : CfhdbUsbDevice),
      (CfhdbUsbDevice.set_available_profiles catalog d).result_list =
        catalog.filter (usb_matching d) ∧
      ((CfhdbUsbDevice.set_available_profiles catalog d).result_list).Sublist
        catalog) ∧
    (∀ (catalog : List CfhdbBtProfile) (d : CfhdbBtDevice),
      (CfhdbBtDevice.set_available_profiles catalog d).result_list =
        catalog.filter (bt_matching d) ∧
      ((CfhdbBtDevice.set_available_profiles catalog d).result_list).Sublist
        catalog) ∧
    (∀ (catalog : List CfhdbDmiProfile) (d : CfhdbDmiDevice),
      (CfhdbDmiDevice.set_available_profiles catalog d).result_list =
        catalog.filter (dmi_matching d) ∧
      ((CfhdbDmiDevice.set_available_profiles catalog d).result_list).Sublist
        catalog) := by
  refine ⟨?_, ?_, ?_, ?_, ?_, ?_⟩
  · intro env doc l h
    refine ⟨parse_catalog_sorted _ _ doc l h, ?_⟩
    intro r hr
    rw [parse_usb_profiles_raw_eq] at hr
    exact ⟨fun k => parse_catalog_stable _ _ doc l r h hr k,
      parse_catalog_perm _ _ doc l r h hr⟩
  · intro env doc l h
    refine ⟨parse_catalog_sorted _ _ doc l h, ?_⟩
    intro r hr
    rw [parse_bt_profiles_raw_eq] at hr
    exact ⟨fun k => parse_catalog_stable _ _ doc l r h hr k,
      parse_catalog_perm _ _ doc l r h hr⟩
  · intro env doc l h
    refine ⟨parse_catalog_sorted _ _ doc l h, ?_⟩
    intro r hr
    rw [parse_dmi_profiles_raw_eq] at hr
    exact ⟨fun k => parse_catalog_stable _ _ doc l r h hr k,
      parse_catalog_perm _ _ doc l r h hr⟩
  · intro catalog d
    have h1 : (CfhdbUsbDevice.set_available_profiles catalog d).result_list =
        catalog.filter (usb_matching d) :=
      result_list_eq_filter (usb_matching d) catalog
    exact ⟨h1, by rw [h1]; exact List.filter_sublist catalog⟩
  · intro catalog d
    have h1 : (CfhdbBtDevice.set_available_profiles catalog d).result_list =
        catalog.filter (bt_matching d) :=
      result_list_eq_filter (bt_matching d) catalog
    exact ⟨h1, by rw [h1]; exact List.filter_sublist catalog⟩
  · intro catalog d
    have h1 : (CfhdbDmiDevice.set_available_profiles catalog d).result_list =
        catalog.filter (dmi_matching d) :=
      result_list_eq_filter (dmi_matching d) catalog
    exact ⟨h1, by rw [h1]; exact List.filter_sublist catalog⟩

/-- Witness for C3 at the two-profile scenario-shaped catalog: parsing
sorts it to priorities `[1, 5]`. -/
theorem c3_catalog_sorted_stable_order_witness :
    parse_usb_profiles env0 doc_two = .ok doc_two_parsed ∧
    doc_two_parsed.Pairwise (fun a b => a.priority ≤ b.priority) :=
  ⟨by rfl, (c3_catalog_sorted_stable_order.1 env0 doc_two doc_two_parsed (by rfl)).1⟩


/-- C4: for each domain, when the network attempt fails and the cache file
exists the fetcher returns the catalog parsed from the cache contents; when
it fails and no cache file exists it returns the not-found error. -/
theorem c4_cache_fallback :
    (∀ (env : ParseEnv) (fs : String → Option Json) (c : String),
      (get_usb_profiles_from_url env fs
        { response := none, cache_file := some c }).result =
        parse_usb_catalog_text env fs c) ∧
    (∀ (env : ParseEnv) (fs : String → Option Json),
      (get_usb_profiles_from_url env fs
        { response := none, cache_file := none }).result =
        .error .cache_not_found) ∧
    (∀ (env : ParseEnv) (fs : String → Option Json) (c : String),
      (get_bt_profiles_from_url env fs
        { response := none, cache_file := some c }).result =
        parse_bt_catalog_text env fs c) ∧
    (∀ (env : ParseEnv) (fs : String → Option Json),
      (get_bt_profiles_from_url env fs
        { response := none, cache_file := none }).result =
        .error .cache_not_found) ∧
    (∀ (env : ParseEnv) (fs : String → Option Json) (c : String),
      (get_dmi_profiles_from_url env fs
        { response := none, cache_file := some c }).result =
        parse_dmi_catalog_text env fs c) ∧
    (∀ (env : ParseEnv) (fs : String → Option Json),
      (get_dmi_profiles_from_url env fs
        { response := none, cache_file := none }).result =
        .error .cache_not_found) :=
  ⟨fun _ _ _ => rfl, fun _ _ => rfl, fun _ _ _ => rfl, fun _ _ => rfl,
    fun _ _ _ => rfl, fun _ _ => rfl⟩

/-- C5: `install` runs nothing when the status check reports installed;
otherwise it runs at most one combined `set -e` script equal to the spec's
uniform concatenation (package-manager step when `packages` is present,
then the install script text when present), and runs nothing when neither
exists.  Stated for the usb and Bluetooth installers the claim cites. -/
theorem c5_install_idempotent_combined :
    (∀ (sh : String → Bool) (di : String → String) (p : CfhdbUsbProfile),
      p.get_status sh = true → install_usb_profile_scripts sh di p = []) ∧
    (∀ (sh : String → Bool) (di : String → String) (p : CfhdbUsbProfile),
      install_usb_profile_scripts sh di p =
        if p.get_status sh then []
        else install_combined_spec di p.packages p.install_script) ∧
    (∀ (sh : String → Bool) (di : String → String) (p : CfhdbUsbProfile),
      (install_usb_profile_scripts sh di p).length ≤ 1) ∧
    (∀ (sh : String → Bool) (di : String → String) (p : CfhdbBtProfile),
      p.get_status sh = true → install_bt_profile_scripts sh di p = []) ∧
    (∀ (sh : String → Bool) (di : String → String) (p : CfhdbBtProfile),
      install_bt_profile_scripts sh di p =
        if p.get_status sh then []
        else install_combined_spec di p.packages p.install_script) ∧
    (∀ (sh : String → Bool) (di : String → String) (p : CfhdbBtProfile),
      (install_bt_profile_scripts sh di p).length ≤ 1) := by
  refine ⟨?_, ?_, ?_, ?_, ?_, ?_⟩
  · intro sh di p h
    simp [install_usb_profile_scripts, h]
  · intro sh di p
    by_cases h : p.get_status sh
    · simp [install_usb_profile_scripts, h]
    · cases hi : p.install_script <;> cases hpk : p.packages <;>
        simp [install_usb_profile_scripts, install_combined_spec, h, hi, hpk,
          join_lines, String.append_assoc]
  · intro sh di p
    by_cases h : p.get_status sh
    · simp [install_usb_profile_scripts, h]
    · cases hi : p.install_script <;> cases hpk : p.packages <;>
        simp [install_usb_profile_scripts, h, hi, hpk]
  · intro sh di p h
    simp [install_bt_profile_scripts, h]
  · intro sh di p
    by_cases h : p.get_status sh
    · simp [install_bt_profile_scripts, h]
    · cases hi : p.install_script <;> cases hpk : p.packages <;>
        simp [install_bt_profile_scripts, install_combined_spec, h, hi, hpk,
          join_lines, String.append_assoc]
  · intro sh di p
    by_cases h : p.get_status sh
    · simp [install_bt_profile_scripts, h]
    · cases hi : p.install_script <;> cases hpk : p.packages <;>
        simp [install_bt_profile_scripts, h, hi, hpk]

/-- Witness for C5: a profile whose status check succeeds installs
nothing. -/
theorem c5_install_idempotent_combined_witness :
    usb_profile_base.get_status (fun _ => true) = true ∧
    install_usb_profile_scripts (fun _ => true) (fun s => s) usb_profile_base = [] :=
  ⟨rfl, c5_install_idempotent_combined.1 (fun _ => true) (fun s => s)
    usb_profile_base rfl⟩


/-- C6 counterexample: on the end-to-end scenario catalog the parse aborts
(every entry lacks a `packages` key, which is fatal), so no catalog —
let alone the expected `["b", "a"]` — is produced; and even matching the
corresponding profile records directly yields no profiles, because the
Bluetooth whitelist loop never consults `class_ids`. -/
theorem c6_counterexample :
    parse_bt_profiles env0 scenario_doc = .error .invalid_profile_packages ∧
    (CfhdbBtDevice.set_available_profiles
      [scenario_profile_b, scenario_profile_a] bt_device_w).result_list.map
        (fun p => p.codename) = [] :=
  ⟨by rfl, by decide⟩

/-- C6 (amended): parsing the scenario catalog fails fatally on the absent
`packages` keys.  For the corresponding parsed records (packages read as
absent, unlisted list fields empty), the catalog order is `["b", "a"]`
(priority 1 before 5) as claimed, but the computed match result is empty —
the Bluetooth matcher ignores `class_ids` and the empty remaining whitelist
fields fail its conjunction — so the slot stays unset; the status of
profile `"a"` is true and of `"b"` false as claimed. -/
theorem c6_amended (sh : String → Bool)
    (h1 : sh "#! /bin/bash\nset -e\ntrue" = true)
    (h2 : sh "#! /bin/bash\nset -e\nfalse" = false) :
    parse_bt_profiles env0 scenario_doc = .error .invalid_profile_packages ∧
    sort_by_key (fun p : CfhdbBtProfile => p.priority)
      [scenario_profile_a, scenario_profile_b] =
      [scenario_profile_b, scenario_profile_a] ∧
    (CfhdbBtDevice.set_available_profiles
      [scenario_profile_b, scenario_profile_a] bt_device_w).slot = none ∧
    scenario_profile_a.get_status sh = true ∧
    scenario_profile_b.get_status sh = false := by
  refine ⟨by rfl, by decide, by decide, ?_, ?_⟩
  · exact h1
  · exact h2

/-- Witness for the amended C6 with a concrete shell oracle. -/
theorem c6_amended_witness :
    scenario_profile_a.get_status
      (fun s => s == "#! /bin/bash\nset -e\ntrue") = true ∧
    scenario_profile_b.get_status
      (fun s => s == "#! /bin/bash\nset -e\ntrue") = false :=
  ⟨(c6_amended (fun s => s == "#! /bin/bash\nset -e\ntrue")
      (by decide) (by decide)).2.2.2.1,
    (c6_amended (fun s => s == "#! /bin/bash\nset -e\ntrue")
      (by decide) (by decide)).2.2.2.2⟩

/-- C7 counterexample: with an HTTP 500 response and a valid cache file
present, the fetcher uses and caches the 500-response body instead of
falling back to the cache — `send()` only fails on transport errors, and
the source never inspects the status code. -/
theorem c7_counterexample :
    world500.response = some { status := 500, body := body_text } ∧
    (get_usb_profiles_from_url env0 from_str0 world500).result =
      .ok [usb_profile_from_body] ∧
    (get_usb_profiles_from_url env0 from_str0 world500).cache_after =
      some body_text ∧
    parse_usb_catalog_text env0 from_str0 cache_text =
      .ok [usb_profile_from_cache] ∧
    usb_profile_from_body ≠ usb_profile_from_cache ∧
    body_text ≠ cache_text :=
  ⟨rfl, by rfl, rfl, by rfl, by decide, by decide⟩

/-- C7 (amended): a received HTTP response is treated as success whatever
its status code — its body is parsed and written to the cache; only a
transport-level failure (no response at all) triggers the cache fallback. -/
theorem c7_amended :
    (∀ (env : ParseEnv) (fs : String → Option Json) (resp : HttpResponse)
        (cache : Option String),
      get_usb_profiles_from_url env fs
        { response := some resp, cache_file := cache } =
        { result := parse_usb_catalog_text env fs resp.body,
          cache_after := some resp.body }) ∧
    (∀ (env : ParseEnv) (fs : String → Option Json) (resp : HttpResponse)
        (cache : Option String),
      get_bt_profiles_from_url env fs
        { response := some resp, cache_file := cache } =
        { result := parse_bt_catalog_text env fs resp.body,
          cache_after := some resp.body }) ∧
    (∀ (env : ParseEnv) (fs : String → Option Json) (resp : HttpResponse)
        (cache : Option String),
      get_dmi_profiles_from_url env fs
        { response := some resp, cache_file := cache } =
        { result := parse_dmi_catalog_text env fs resp.body,
          cache_after := some resp.body }) :=
  ⟨fun _ _ _ _ => rfl, fun _ _ _ _ => rfl, fun _ _ _ _ => rfl⟩

/-- C8: the `packages` value parses to `None` when a string and to the
coerced element list when an array; any other shape (including an absent
key) makes the ENTIRE catalog parse of that domain fail with the
packages error — no profile is skipped, nothing partial is returned. -/
theorem c8_packages_fatal :
    (∀ (j : Json) (s : String), j.get "packages" = .str s →
      parse_packages j = .ok none) ∧
    (∀ (j : Json) (xs : List Json), j.get "packages" = .arr xs →
      parse_packages j = .ok (some (xs.map (fun x => x.asStr.getD "")))) ∧
    (∀ j : Json, (j.get "packages").asStr = none →
      (j.get "packages").asArray = none →
      parse_packages j = .error .invalid_profile_packages) ∧
    (∀ (env : ParseEnv) (doc : Json) (js : List Json) (jp : Json),
      (doc.get "profiles").asArray = some js → jp ∈ js →
      (jp.get "packages").asStr = none → (jp.get "packages").asArray = none →
      parse_usb_profiles env doc = .error .invalid_profile_packages ∧
      parse_bt_profiles env doc = .error .invalid_profile_packages ∧
      parse_dmi_profiles env doc = .error .invalid_profile_packages) := by
  refine ⟨?_, ?_, ?_, ?_⟩
  · intro j s h
    simp [parse_packages, h, Json.asStr]
  · intro j xs h
    simp [parse_packages, h, Json.asStr, Json.asArray]
  · intro j hs ha
    exact parse_packages_bad j hs ha
  · intro env doc js jp harr hmem hs ha
    refine ⟨?_, ?_, ?_⟩
    · rw [parse_usb_profiles, parse_catalog]
      simp only [harr]
      exact parse_catalog_loop_error _ _ _
        (fun j e h => parse_usb_profile_error env j e h) js jp hmem
        (parse_usb_profile_bad env jp hs ha) []
    · rw [parse_bt_profiles, parse_catalog]
      simp only [harr]
      exact parse_catalog_loop_error _ _ _
        (fun j e h => parse_bt_profile_error env j e h) js jp hmem
        (parse_bt_profile_bad env jp hs ha) []
    · rw [parse_dmi_profiles, parse_catalog]
      simp only [harr]
      exact parse_catalog_loop_error _ _ _
        (fun j e h => parse_dmi_profile_error env j e h) js jp hmem
        (parse_dmi_profile_bad env jp hs ha) []

/-- Witness for C8 on the scenario catalog, whose entries lack `packages`:
all three domain parses abort with the packages error. -/
theorem c8_packages_fatal_witness :
    parse_usb_profiles env0 scenario_doc = .error .invalid_profile_packages ∧
    parse_bt_profiles env0 scenario_doc = .error .invalid_profile_packages ∧
    parse_dmi_profiles env0 scenario_doc = .error .invalid_profile_packages :=
  c8_packages_fatal.2.2.2 env0 scenario_doc
    [scenario_entry_a, scenario_entry_b] scenario_entry_a rfl
    (List.mem_cons_self _ _) rfl rfl
